import Mathlib

/-!
Shallow embedding of the soltar worker (`cmd/worker/main.go`): the OTP
issue/verify state machine, the client registry with its dual by-email /
by-client-id views, session-token issuance/validation, and the per-client
infrastructure manifest read/replace path.

Modelling conventions:
* Timestamps (`time.Time`, Unix seconds) are `Int`.
* The key-value store (`Storage` in the source) keeps disjoint key
  namespaces `otp:<email>`, `client:<email>`, `client_id:<id>`,
  `environment:<env_id>`; it is modelled as four typed partial maps, one
  per namespace, with JSON (de)serialization modelled as the identity on
  the typed records.
* `crypto/rand` bytes, UUIDs, the configured region and the signing
  secret enter the model as explicit parameters of the operations that
  consume them.
-/

namespace Soltar

/-- OTP record stored under `otp:<email>` (`handleRegister`):
`{"otp": ..., "expires": ..., "attempts": 0}`. -/
structure OTPRec where
  otp : String
  expires : Int
  attempts : Nat
deriving DecidableEq

/-- `Environment` struct from `main.go`. -/
structure Environment where
  id : String
  clientId : String
  vpnServer : String
  vpnPort : Nat
  created : Int
  status : String
  region : String
  instances : List String
  databases : List String
  storage : List String
deriving DecidableEq

/-- `Infrastructure` struct from `main.go` (the manifest). -/
structure Infrastructure where
  vpnInstances : List String
  loadBalancers : List String
  databases : List String
  storage : List String
  created : Int
  lastUpdated : Int
deriving DecidableEq

/-- `ClientData` aggregate from `main.go`. -/
structure ClientData where
  id : String
  email : String
  created : Int
  lastSeen : Int
  environment : Environment
  infrastructure : Infrastructure
deriving DecidableEq

/-- The store, split by key namespace (see module comment). -/
structure Store where
  otps : String → Option OTPRec
  clientsByEmail : String → Option ClientData
  clientsById : String → Option ClientData
  environments : String → Option Environment

/-- The empty store. -/
def Store.empty : Store :=
  ⟨fun _ => none, fun _ => none, fun _ => none, fun _ => none⟩

/-- Point update of one namespace map (`Put` with `some v`, `Delete` with
`none`). -/
def upd {α : Type} (f : String → Option α) (k : String) (v : Option α) :
    String → Option α :=
  fun k2 => if k2 = k then v else f k2

/-! ## OTP generation (`generateOTP`)

Go source:
`bytes := make([]byte, 3); rand.Read(bytes);`
`return fmt.Sprintf("%06d", int(bytes[0])<<16|int(bytes[1])<<8|int(bytes[2]))[:6]`

The three random bytes are parameters.  `decDigits` renders a natural
number in decimal, most significant digit first, as `%d` does; `sprintf06`
left-pads with zeros to width at least 6, as `%06d` does; the final
`.take 6` is the Go string slice `[:6]`. -/

/-- ASCII character of the decimal digit `d`. -/
def decChar (d : Nat) : Char := Char.ofNat (48 + d)

/-- Decimal digit characters of `n`, most significant first (`%d`). -/
def decDigits (n : Nat) : List Char :=
  if n < 10 then [decChar n]
  else decDigits (n / 10) ++ [decChar (n % 10)]
termination_by n
decreasing_by
  omega

/-- `fmt.Sprintf("%06d", n)`: left-zero-pad the decimal rendering to width
at least 6. -/
def sprintf06 (n : Nat) : List Char :=
  List.replicate (6 - (decDigits n).length) '0' ++ decDigits n

/-- `int(b0)<<16 | int(b1)<<8 | int(b2)`. -/
def combine24 (b0 b1 b2 : Nat) : Nat :=
  b0 <<< 16 ||| b1 <<< 8 ||| b2

/-- `generateOTP`, as a function of the three random bytes. -/
def generateOTP (b0 b1 b2 : Nat) : String :=
  String.mk ((sprintf06 (combine24 b0 b1 b2)).take 6)

/-! ## OTP issue and verify (`handleRegister`, `handleVerify`) -/

/-- Outcome of `handleRegister` (HTTP 200 vs 400 "Missing email"). -/
inductive RegisterResult where
  | ok
  | missingEmail
deriving DecidableEq

/-- `handleRegister`: rejects an empty email, otherwise stores
`{otp := generateOTP b0 b1 b2, expires := now + 300, attempts := 0}`
under `otp:<email>`, overwriting any existing record.  (JSON-decode
failures of the body are outside the model.) -/
def handleRegister (s : Store) (email : String) (b0 b1 b2 : Nat)
    (now : Int) : RegisterResult × Store :=
  if email = "" then (RegisterResult.missingEmail, s)
  else
    let r : OTPRec := ⟨generateOTP b0 b1 b2, now + 300, 0⟩
    (RegisterResult.ok, { s with otps := upd s.otps email (some r) })

/-- Failure modes of `handleVerify`.  In the source, `notFound` and
`mismatch` both surface as HTTP 400 "Invalid OTP" (the former is the
record-absent branch after `storage.Get` fails), and `expired` as
HTTP 400 "OTP expired". -/
inductive VerifyError where
  | notFound
  | mismatch
  | expired
deriving DecidableEq

/-- `getOrCreateClientWithInfrastructure`.  The fresh UUIDs for the client
and environment, the configured region, and the current time are
parameters. -/
def getOrCreateClientWithInfrastructure (s : Store) (email : String)
    (clientID envID region : String) (now : Int) : ClientData × Store :=
  match s.clientsByEmail email with
  | some client => (client, s)
  | none =>
    let environment : Environment :=
      { id := envID, clientId := clientID,
        vpnServer := "vpn-" ++ clientID.take 8 ++ ".soltar.com",
        vpnPort := 443, created := now, status := "active",
        region := region, instances := [], databases := [], storage := [] }
    let infrastructure : Infrastructure :=
      { vpnInstances := [], loadBalancers := [], databases := [],
        storage := [], created := now, lastUpdated := now }
    let client : ClientData :=
      { id := clientID, email := email, created := now, lastSeen := now,
        environment := environment, infrastructure := infrastructure }
    let s1 := { s with clientsByEmail := upd s.clientsByEmail email (some client) }
    let s2 := { s1 with clientsById := upd s1.clientsById clientID (some client) }
    let s3 := { s2 with environments := upd s2.environments envID (some environment) }
    (client, s3)

/-- `getClientInfrastructure`: lookup under `client_id:<id>`. -/
def getClientInfrastructure (s : Store) (clientID : String) :
    Option ClientData :=
  s.clientsById clientID

/-- `generateToken`: HS256 JWT with subject, iat = now,
exp = now + 24h (86400 s).  The signature is modelled by carrying the
signing key inside the token: a token verifies under key `k` iff it was
signed with `k`. -/
structure Token where
  sub : String
  iat : Int
  exp : Int
  key : String
deriving DecidableEq

/-- `generateToken`. -/
def generateToken (clientID : String) (now : Int) (secret : String) :
    Token :=
  ⟨clientID, now, now + 86400, secret⟩

/-- `validateToken`.  Modelled from the spec (§4.4) for the jwt library
behavior, which is outside the repository: fails if the signature does not
verify, fails with expiry once `now > expires_at`, otherwise returns the
subject. -/
def validateToken (t : Token) (secret : String) (now : Int) :
    Option String :=
  if t.key ≠ secret then none
  else if now > t.exp then none
  else some t.sub

/-- `handleVerify`: looks up `otp:<email>` (absent ⇒ `notFound`), compares
the stored code with the candidate (`otpData["otp"] != req.OTP` ⇒
`mismatch`, store untouched), checks expiry (`now > expires` ⇒ delete the
record and `expired`), and on success provisions/fetches the client,
mints a token, and deletes the OTP record. -/
def handleVerify (s : Store) (email candidate : String)
    (clientID envID region secret : String) (now : Int) :
    Except VerifyError (String × Token × Environment) × Store :=
  match s.otps email with
  | none => (Except.error VerifyError.notFound, s)
  | some r =>
    if r.otp ≠ candidate then (Except.error VerifyError.mismatch, s)
    else if now > r.expires then
      (Except.error VerifyError.expired,
        { s with otps := upd s.otps email none })
    else
      let cs := getOrCreateClientWithInfrastructure s email clientID envID region now
      let token := generateToken cs.1.id now secret
      (Except.ok (cs.1.id, token, cs.1.environment),
        { cs.2 with otps := upd cs.2.otps email none })

/-! ## Registry updates and authenticated handlers -/

/-- `updateClientInfrastructure`: read-modify-write against
`client_id:<id>`; replaces the whole manifest, stamps
`LastUpdated = now`, and re-persists both the by-client-id and the
by-email views.  A missing client is a silent no-op. -/
def updateClientInfrastructure (s : Store) (clientID : String)
    (infrastructure : Infrastructure) (now : Int) : Store :=
  match getClientInfrastructure s clientID with
  | none => s
  | some c =>
    let c2 : ClientData :=
      { c with infrastructure := { infrastructure with lastUpdated := now } }
    let s1 := { s with clientsById := upd s.clientsById clientID (some c2) }
    { s1 with clientsByEmail := upd s1.clientsByEmail c2.email (some c2) }

/-- `updateClientLastSeen`: read-modify-write against `client_id:<id>`;
stamps `LastSeen = now` and re-persists both views. -/
def updateClientLastSeen (s : Store) (clientID : String) (now : Int) :
    Store :=
  match getClientInfrastructure s clientID with
  | none => s
  | some c =>
    let c2 : ClientData := { c with lastSeen := now }
    let s1 := { s with clientsById := upd s.clientsById clientID (some c2) }
    { s1 with clientsByEmail := upd s1.clientsByEmail c2.email (some c2) }

/-- Outcome of `handleConnect`. -/
inductive ConnectResult where
  | unauthorized
  | clientNotFound
  | connected (clientId : String) (env : Environment)
deriving DecidableEq

/-- `handleConnect`: bearer auth, client lookup, then
`updateClientLastSeen`.  `auth = none` models a missing Authorization
header. -/
def handleConnect : Store → Option Token → String → Int →
    ConnectResult × Store
  | s, none, _, _ => (ConnectResult.unauthorized, s)
  | s, some t, secret, now =>
    match validateToken t secret now with
    | none => (ConnectResult.unauthorized, s)
    | some clientID =>
      match getClientInfrastructure s clientID with
      | none => (ConnectResult.clientNotFound, s)
      | some c =>
        (ConnectResult.connected clientID c.environment,
          updateClientLastSeen s clientID now)

/-- `VPNConfig` response of `handleConfig`. -/
structure VPNConfig where
  server : String
  port : Nat
  token : Token
  environmentID : String
deriving DecidableEq

/-- `handleConfig`: bearer auth and client lookup only; the store is not
written. -/
def handleConfig : Store → Option Token → String → Int →
    Option VPNConfig × Store
  | s, none, _, _ => (none, s)
  | s, some t, secret, now =>
    match validateToken t secret now with
    | none => (none, s)
    | some clientID =>
      match getClientInfrastructure s clientID with
      | none => (none, s)
      | some c =>
        (some ⟨c.environment.vpnServer, c.environment.vpnPort, t,
          c.environment.id⟩, s)

/-- `handleInfrastructure` (POST): bearer auth, then
`updateClientInfrastructure` (which silently no-ops on a missing client);
responds 200 with the client id either way. -/
def handleInfrastructure : Store → Option Token → String →
    Infrastructure → Int → Option String × Store
  | s, none, _, _, _ => (none, s)
  | s, some t, secret, infrastructure, now =>
    match validateToken t secret now with
    | none => (none, s)
    | some clientID =>
      (some clientID, updateClientInfrastructure s clientID infrastructure now)

/-- `handleGetInfrastructure` (GET): bearer auth and client lookup only;
the store is not written. -/
def handleGetInfrastructure : Store → Option Token → String → Int →
    Option (String × Infrastructure × Environment) × Store
  | s, none, _, _ => (none, s)
  | s, some t, secret, now =>
    match validateToken t secret now with
    | none => (none, s)
    | some clientID =>
      match getClientInfrastructure s clientID with
      | none => (none, s)
      | some c => (some (clientID, c.infrastructure, c.environment), s)

/-! ## Derived definitions for the analysis of `generateOTP` -/

/-- Numeric value of a digit string (inverse of the decimal rendering). -/
def strVal (l : List Char) : Nat :=
  l.foldl (fun a c => 10 * a + (c.toNat - 48)) 0

/-- Numeric value of the code `generateOTP` emits for the 24-bit input
`n`: the decimal rendering of `n` is truncated to its first 6 digits,
which divides `n` by `10 ^ (digits - 6)` when it has more than 6
digits. -/
def truncVal (n : Nat) : Nat := n / 10 ^ ((decDigits n).length - 6)

/-- Number of 24-bit byte triples that `generateOTP` maps to the 6-digit
code with numeric value `v` (for `v < 1000000`, `String.mk (sprintf06 v)`
enumerates exactly the 6-digit decimal codes 000000–999999). -/
def otpFiberCard (v : Nat) : Nat :=
  ((Finset.univ : Finset (Fin 256 × Fin 256 × Fin 256)).filter
    (fun t => generateOTP t.1 t.2.1 t.2.2 = String.mk (sprintf06 v))).card

/-! ## Concrete stores used as witnesses and counterexamples -/

/-- A store holding one pending OTP record for `a@x.com`: code `123456`,
expiry time 300, attempt count 0. -/
def sampleOtpStore : Store :=
  ⟨upd (fun _ => none) "a@x.com" (some ⟨"123456", 300, 0⟩),
   fun _ => none, fun _ => none, fun _ => none⟩

/-- A concrete environment record. -/
def sampleEnv : Environment :=
  ⟨"env1", "c1", "vpn-c1.soltar.com", 443, 0, "active", "us-east-1", [], [], []⟩

/-- The empty infrastructure manifest with zero timestamps. -/
def emptyManifest : Infrastructure := ⟨[], [], [], [], 0, 0⟩

/-- A concrete client aggregate with id `c1` and email `e@x.com`. -/
def sampleClient : ClientData := ⟨"c1", "e@x.com", 0, 0, sampleEnv, emptyManifest⟩

/-- A store holding `sampleClient` under both its by-email and its
by-client-id key. -/
def clientStore : Store :=
  ⟨fun _ => none,
   upd (fun _ => none) "e@x.com" (some sampleClient),
   upd (fun _ => none) "c1" (some sampleClient),
   fun _ => none⟩

/-- A concrete non-empty manifest with `lastUpdated = 0`. -/
def sampleManifest : Infrastructure := ⟨["vm1"], ["lb1"], ["db1"], ["s1"], 0, 0⟩


/-! ## Store lemmas -/

/-- Reading an updated key returns the written value. -/
theorem upd_same {α : Type} (f : String → Option α) (k : String) (v : Option α) :
    upd f k v k = v := by
  simp [upd]

/-- Reading any other key is unaffected by an update. -/
theorem upd_ne {α : Type} (f : String → Option α) (k : String) (v : Option α)
    (k2 : String) (h : k2 ≠ k) : upd f k v k2 = f k2 := by
  simp [upd, h]

/-! ## Decimal rendering: basic facts -/

/-- Unfolding of `decDigits` for single-digit input. -/
theorem decDigits_low {n : Nat} (h : n < 10) : decDigits n = [decChar n] := by
  rw [decDigits]
  simp [h]

/-- Unfolding of `decDigits` for multi-digit input. -/
theorem decDigits_high {n : Nat} (h : ¬ n < 10) :
    decDigits n = decDigits (n / 10) ++ [decChar (n % 10)] := by
  rw [decDigits]
  simp [h]

/-- A decimal rendering is never empty. -/
theorem decDigits_len_pos (n : Nat) : 0 < (decDigits n).length := by
  rw [decDigits]
  split <;> simp

/-- `n` is below `10 ^ (number of its digits)`. -/
theorem decDigits_lt (n : Nat) : n < 10 ^ (decDigits n).length := by
  induction n using Nat.strong_induction_on with
  | _ n ih =>
    by_cases h : n < 10
    · rw [decDigits_low h]
      simpa using h
    · rw [decDigits_high h]
      have h1 := ih (n / 10) (Nat.div_lt_self (by omega) (by omega))
      simp only [List.length_append, List.length_singleton]
      have h2 : 10 ^ ((decDigits (n / 10)).length + 1)
          = 10 ^ (decDigits (n / 10)).length * 10 := by
        rw [pow_succ]
      omega

/-- A positive `n` is at least `10 ^ (number of its digits - 1)`. -/
theorem decDigits_ge (n : Nat) (h1 : 1 ≤ n) :
    10 ^ ((decDigits n).length - 1) ≤ n := by
  induction n using Nat.strong_induction_on with
  | _ n ih =>
    by_cases h : n < 10
    · rw [decDigits_low h]
      simpa using h1
    · rw [decDigits_high h]
      have hpos := decDigits_len_pos (n / 10)
      have h2 := ih (n / 10) (Nat.div_lt_self (by omega) (by omega)) (by omega)
      simp only [List.length_append, List.length_singleton]
      obtain ⟨K, hK⟩ : ∃ K, (decDigits (n / 10)).length = K + 1 :=
        ⟨(decDigits (n / 10)).length - 1, by omega⟩
      rw [hK]
      have h4 : K + 1 + 1 - 1 = K + 1 := by omega
      rw [h4]
      have h3 : 10 ^ (K + 1) = 10 ^ K * 10 := by rw [pow_succ]
      rw [hK] at h2
      simp only [Nat.add_sub_cancel] at h2
      omega

/-- ASCII value of a digit character. -/
theorem decChar_toNat {d : Nat} (h : d < 10) : (decChar d).toNat = 48 + d := by
  interval_cases d <;> decide

/-- `strVal` peels the last digit. -/
theorem strVal_append_singleton (l : List Char) (c : Char) :
    strVal (l ++ [c]) = 10 * strVal l + (c.toNat - 48) := by
  simp [strVal, List.foldl_append]

/-- `strVal` inverts the decimal rendering. -/
theorem strVal_decDigits (n : Nat) : strVal (decDigits n) = n := by
  induction n using Nat.strong_induction_on with
  | _ n ih =>
    by_cases h : n < 10
    · rw [decDigits_low h]
      simp [strVal, decChar_toNat h]
    · rw [decDigits_high h, strVal_append_singleton]
      rw [ih (n / 10) (Nat.div_lt_self (by omega) (by omega))]
      rw [decChar_toNat (Nat.mod_lt n (by omega))]
      omega

/-- Leading zeros do not change the numeric value. -/
theorem strVal_replicate_append (j : Nat) (l : List Char) :
    strVal (List.replicate j '0' ++ l) = strVal l := by
  induction j with
  | zero => simp
  | succ k ih =>
    rw [List.replicate_succ]
    simpa [strVal] using ih

/-- `strVal` inverts the zero-padded rendering. -/
theorem strVal_sprintf06 (n : Nat) : strVal (sprintf06 n) = n := by
  rw [sprintf06, strVal_replicate_append, strVal_decDigits]

/-- The zero-padded rendering is injective. -/
theorem sprintf06_inj {v1 v2 : Nat} (h : sprintf06 v1 = sprintf06 v2) :
    v1 = v2 := by
  have h2 := congrArg strVal h
  rwa [strVal_sprintf06, strVal_sprintf06] at h2


/-! ## Truncation analysis of `generateOTP` -/

/-- Taking the first `k` digits of the rendering of `n` renders
`n / 10 ^ (digits - k)`. -/
theorem decDigits_take (n : Nat) :
    ∀ k, 1 ≤ k → k ≤ (decDigits n).length →
      (decDigits n).take k = decDigits (n / 10 ^ ((decDigits n).length - k)) := by
  induction n using Nat.strong_induction_on with
  | _ n ih =>
    intro k hk1 hk2
    by_cases h : n < 10
    · rw [decDigits_low h] at hk2 ⊢
      simp only [List.length_singleton] at hk2
      have hk : k = 1 := by omega
      subst hk
      simp [decDigits_low h]
    · rw [decDigits_high h] at hk2 ⊢
      simp only [List.length_append, List.length_singleton] at hk2 ⊢
      set L := (decDigits (n / 10)).length with hL
      by_cases hke : k = L + 1
      · subst hke
        rw [List.take_of_length_le (by simp)]
        simp only [Nat.sub_self, pow_zero, Nat.div_one]
        rw [decDigits_high h]
      · have hkle : k ≤ L := by omega
        rw [List.take_append_of_le_length hkle]
        rw [ih (n / 10) (Nat.div_lt_self (by omega) (by omega)) k hk1 hkle]
        have he1 : L + 1 - k = (L - k) + 1 := by omega
        rw [he1, pow_succ]
        rw [Nat.div_div_eq_div_mul, Nat.mul_comm]

/-- The emitted code value is always below 10^6. -/
theorem truncVal_lt (n : Nat) : truncVal n < 1000000 := by
  rw [truncVal]
  have hlt := decDigits_lt n
  by_cases h : (decDigits n).length ≤ 6
  · have he : (decDigits n).length - 6 = 0 := by omega
    rw [he, pow_zero, Nat.div_one]
    calc n < 10 ^ (decDigits n).length := hlt
    _ ≤ 10 ^ 6 := Nat.pow_le_pow_right (by omega) h
    _ = 1000000 := by norm_num
  · rw [Nat.div_lt_iff_lt_mul (Nat.pos_pow_of_pos _ (by omega))]
    have he : (1000000 : Nat) * 10 ^ ((decDigits n).length - 6) = 10 ^ (decDigits n).length := by
      have h6 : (1000000 : Nat) = 10 ^ 6 := by norm_num
      rw [h6, ← pow_add]
      congr 1
      omega
    rw [he]
    exact hlt

/-- Digit count is determined by the magnitude of the number. -/
theorem decDigits_len_eq {m k : Nat} (h1 : 10 ^ k ≤ m) (h2 : m < 10 ^ (k + 1)) :
    (decDigits m).length = k + 1 := by
  have hm1 : 1 ≤ m := le_trans (Nat.one_le_pow _ _ (by omega)) h1
  have hlt := decDigits_lt m
  have hge := decDigits_ge m hm1
  have hpos := decDigits_len_pos m
  have ha : (10 : Nat) ^ k < 10 ^ (decDigits m).length :=
    lt_of_le_of_lt h1 hlt
  have hb : (10 : Nat) ^ ((decDigits m).length - 1) < 10 ^ (k + 1) :=
    lt_of_le_of_lt hge h2
  have hc : k < (decDigits m).length := (Nat.pow_lt_pow_iff_right (by omega)).mp ha
  have hd : (decDigits m).length - 1 < k + 1 := (Nat.pow_lt_pow_iff_right (by omega)).mp hb
  omega

/-- A number in [100000, 1000000) renders with exactly 6 digits. -/
theorem decDigits_len_six {m : Nat} (h1 : 100000 ≤ m) (h2 : m < 1000000) :
    (decDigits m).length = 6 := by
  have hlt := decDigits_lt m
  have hge := decDigits_ge m (by omega)
  have hpos := decDigits_len_pos m
  have ha : (10 : Nat) ^ 5 < 10 ^ (decDigits m).length := by
    calc (10 : Nat) ^ 5 = 100000 := by norm_num
    _ ≤ m := h1
    _ < _ := hlt
  have hb : (10 : Nat) ^ ((decDigits m).length - 1) < 10 ^ 6 := by
    calc (10 : Nat) ^ ((decDigits m).length - 1) ≤ m := hge
    _ < 1000000 := h2
    _ = 10 ^ 6 := by norm_num
  have hc : 5 < (decDigits m).length := by
    exact (Nat.pow_lt_pow_iff_right (by omega)).mp ha
  have hd : (decDigits m).length - 1 < 6 := by
    exact (Nat.pow_lt_pow_iff_right (by omega)).mp hb
  omega

/-- Truncating the padded rendering to 6 characters is the padded
rendering of the truncated value. -/
theorem take6_sprintf06 (n : Nat) :
    (sprintf06 n).take 6 = sprintf06 (truncVal n) := by
  by_cases h : (decDigits n).length ≤ 6
  · have ht : truncVal n = n := by
      rw [truncVal]
      have he : (decDigits n).length - 6 = 0 := by omega
      rw [he, pow_zero, Nat.div_one]
    rw [ht]
    apply List.take_of_length_le
    rw [sprintf06]
    simp only [List.length_append, List.length_replicate]
    omega
  · have hL : 7 ≤ (decDigits n).length := by omega
    have hn1 : 1 ≤ n := by
      by_contra hc
      have hz : n = 0 := by omega
      subst hz
      rw [decDigits_low (by omega)] at hL
      simp at hL
    have hsp : sprintf06 n = decDigits n := by
      rw [sprintf06]
      have he : 6 - (decDigits n).length = 0 := by omega
      rw [he]
      simp
    rw [hsp]
    rw [decDigits_take n 6 (by omega) (by omega)]
    have htv : truncVal n = n / 10 ^ ((decDigits n).length - 6) := rfl
    rw [← htv]
    have hge : 100000 ≤ truncVal n := by
      rw [truncVal]
      rw [Nat.le_div_iff_mul_le (Nat.pos_pow_of_pos _ (by omega))]
      have hge2 := decDigits_ge n hn1
      calc 100000 * 10 ^ ((decDigits n).length - 6)
          = 10 ^ 5 * 10 ^ ((decDigits n).length - 6) := by norm_num
      _ = 10 ^ (5 + ((decDigits n).length - 6)) := by rw [pow_add]
      _ = 10 ^ ((decDigits n).length - 1) := by congr 1; omega
      _ ≤ n := hge2
    have hlt : truncVal n < 1000000 := truncVal_lt n
    rw [sprintf06]
    have hlen : (decDigits (truncVal n)).length = 6 := decDigits_len_six hge hlt
    rw [hlen]
    simp

/-! ## Digit-string format of the emitted code -/

/-- Every character of a decimal rendering is an ASCII digit. -/
theorem decDigits_bounds (n : Nat) :
    ∀ c ∈ decDigits n, 48 ≤ c.toNat ∧ c.toNat ≤ 57 := by
  induction n using Nat.strong_induction_on with
  | _ n ih =>
    intro c hc
    by_cases h : n < 10
    · rw [decDigits_low h] at hc
      simp only [List.mem_singleton] at hc
      subst hc
      rw [decChar_toNat h]
      omega
    · rw [decDigits_high h] at hc
      rw [List.mem_append] at hc
      rcases hc with hc | hc
      · exact ih (n / 10) (Nat.div_lt_self (by omega) (by omega)) c hc
      · simp only [List.mem_singleton] at hc
        subst hc
        rw [decChar_toNat (Nat.mod_lt n (by omega))]
        omega

/-- Every character of a zero-padded rendering is an ASCII digit. -/
theorem sprintf06_bounds (n : Nat) :
    ∀ c ∈ sprintf06 n, 48 ≤ c.toNat ∧ c.toNat ≤ 57 := by
  intro c hc
  rw [sprintf06, List.mem_append] at hc
  rcases hc with hc | hc
  · rw [List.mem_replicate] at hc
    rw [hc.2]
    decide
  · exact decDigits_bounds n c hc

/-- The padded rendering has at least 6 characters. -/
theorem sprintf06_len_ge (n : Nat) : 6 ≤ (sprintf06 n).length := by
  rw [sprintf06]
  simp only [List.length_append, List.length_replicate]
  omega

/-- Every emitted code has exactly 6 characters. -/
theorem generateOTP_len (b0 b1 b2 : Nat) : (generateOTP b0 b1 b2).length = 6 := by
  rw [generateOTP]
  show ((sprintf06 (combine24 b0 b1 b2)).take 6).length = 6
  rw [List.length_take]
  have h := sprintf06_len_ge (combine24 b0 b1 b2)
  omega

/-- Every character of an emitted code is an ASCII digit. -/
theorem generateOTP_digits (b0 b1 b2 : Nat) :
    ∀ c ∈ (generateOTP b0 b1 b2).data, 48 ≤ c.toNat ∧ c.toNat ≤ 57 := by
  intro c hc
  rw [generateOTP] at hc
  have hc2 : c ∈ sprintf06 (combine24 b0 b1 b2) := List.mem_of_mem_take hc
  exact sprintf06_bounds _ c hc2

/-- ASCII digit bounds give `Char.isDigit`. -/
theorem digit_isDigit {c : Char} (h1 : 48 ≤ c.toNat) (h2 : c.toNat ≤ 57) :
    c.isDigit = true := by
  rw [Char.isDigit]
  simp only [Bool.and_eq_true, decide_eq_true_eq]
  constructor
  · exact h1
  · exact h2


/-! ## Fiber counting for `generateOTP` over the 2^24 byte triples -/

/-- `String.mk` is injective. -/
theorem stringMk_inj {a b : List Char} : String.mk a = String.mk b ↔ a = b :=
  ⟨fun h => congrArg String.data h, fun h => congrArg String.mk h⟩

/-- A byte triple maps to the code of value `v` iff the truncated value of
its 24-bit combination is `v`. -/
theorem generateOTP_eq_code (b0 b1 b2 v : Nat) :
    generateOTP b0 b1 b2 = String.mk (sprintf06 v) ↔
      truncVal (combine24 b0 b1 b2) = v := by
  rw [generateOTP, stringMk_inj]
  rw [take6_sprintf06]
  constructor
  · exact fun h => sprintf06_inj h
  · exact fun h => by rw [h]

set_option maxRecDepth 8192 in
/-- The string fiber of a code agrees with the numeric fiber of its
value. -/
theorem otpFiberCard_eq (v : Nat) :
    otpFiberCard v = ((Finset.univ : Finset (Fin 256 × Fin 256 × Fin 256)).filter
      (fun t => truncVal (combine24 t.1 t.2.1 t.2.2) = v)).card := by
  rw [otpFiberCard]
  congr 1
  apply Finset.filter_congr
  intro t _
  exact generateOTP_eq_code _ _ _ v

/-- The fiber sizes of the 10^6 codes partition the 2^24 byte triples. -/
theorem otpFiberCard_sum :
    ∑ v ∈ Finset.range 1000000, otpFiberCard v = 16777216 := by
  have hmem : ∀ t : Fin 256 × Fin 256 × Fin 256, t ∈ Finset.univ →
      truncVal (combine24 t.1 t.2.1 t.2.2) ∈ Finset.range 1000000 := by
    intro t _
    exact Finset.mem_range.mpr (truncVal_lt _)
  have h := Finset.card_eq_sum_card_fiberwise hmem
  rw [Finset.card_univ] at h
  have hcard : Fintype.card (Fin 256 × Fin 256 × Fin 256) = 16777216 := by
    rw [Fintype.card_prod, Fintype.card_prod, Fintype.card_fin]
  rw [hcard] at h
  have h2 : ∑ v ∈ Finset.range 1000000, otpFiberCard v
      = ∑ v ∈ Finset.range 1000000,
        ((Finset.univ : Finset (Fin 256 × Fin 256 × Fin 256)).filter
          (fun t => truncVal (combine24 t.1 t.2.1 t.2.2) = v)).card :=
    Finset.sum_congr rfl (fun v _ => otpFiberCard_eq v)
  rw [h2]
  exact h.symm

/-- No uniform fiber size exists: 10^6 does not divide 2^24. -/
theorem otpFiberCard_not_const :
    ¬ ∃ c : Nat, ∀ v : Nat, v < 1000000 → otpFiberCard v = c := by
  rintro ⟨c, hc⟩
  have h := otpFiberCard_sum
  rw [Finset.sum_congr rfl (fun v hv => hc v (Finset.mem_range.mp hv))] at h
  rw [Finset.sum_const, Finset.card_range, smul_eq_mul] at h
  omega

/-- 100000 renders with 6 digits, so truncation is the identity there. -/
theorem truncVal_100000 : truncVal 100000 = 100000 := by
  rw [truncVal]
  have h : (decDigits 100000).length = 5 + 1 := by
    apply decDigits_len_eq <;> norm_num
  rw [h]
  norm_num

/-- 1000000 renders with 7 digits, so truncation drops the last one. -/
theorem truncVal_1000000 : truncVal 1000000 = 100000 := by
  rw [truncVal]
  have h : (decDigits 1000000).length = 6 + 1 := by
    apply decDigits_len_eq <;> norm_num
  rw [h]
  norm_num

/-- The byte triples encoding 100000 and 1000000 collide on the code
"100000". -/
theorem generateOTP_collision : generateOTP 1 134 160 = generateOTP 15 66 64 := by
  rw [generateOTP, generateOTP]
  have e1 : combine24 1 134 160 = 100000 := by decide
  have e2 : combine24 15 66 64 = 1000000 := by decide
  rw [e1, e2, take6_sprintf06, take6_sprintf06, truncVal_100000, truncVal_1000000]

/-- C1: every code `generateOTP` emits is a string of exactly 6 decimal
digits (leading zeros allowed), as the claim states; but the generator is
NOT uniform over 000000–999999.  The byte triples (1,134,160) (24-bit
value 100000) and (15,66,64) (value 1000000) already collide on the code
"100000", and no common fiber size can exist at all: the fiber sizes of
the 10^6 codes (`String.mk (sprintf06 v)` for `v < 1000000` enumerates
exactly the 6-digit codes) sum to 2^24 = 16777216 over the byte triples,
and 10^6 does not divide 2^24.  The code's `%06d`-then-`[:6]` truncation
contradicts the claimed uniformity. -/
theorem C1_otp_six_digits_not_uniform :
    (∀ b0 b1 b2 : Nat, (generateOTP b0 b1 b2).length = 6 ∧
      ∀ ch ∈ (generateOTP b0 b1 b2).data, ch.isDigit = true) ∧
    generateOTP 1 134 160 = generateOTP 15 66 64 ∧
    ¬ ∃ c : Nat, ∀ v : Nat, v < 1000000 → otpFiberCard v = c := by
  refine ⟨fun b0 b1 b2 => ⟨generateOTP_len b0 b1 b2, fun ch hch => ?_⟩,
    generateOTP_collision, otpFiberCard_not_const⟩
  have hb := generateOTP_digits b0 b1 b2 ch hch
  exact digit_isDigit hb.1 hb.2


/-! ## Branch lemmas for `handleVerify` and the registry -/

/-- Absent record: `notFound`, store untouched. -/
theorem handleVerify_notFound {s : Store} {email cand cid eid reg sec : String}
    {now : Int} (h : s.otps email = none) :
    handleVerify s email cand cid eid reg sec now
      = (Except.error VerifyError.notFound, s) := by
  unfold handleVerify
  rw [h]

/-- Wrong candidate: `mismatch`, store untouched (this branch precedes the
expiry check). -/
theorem handleVerify_mismatch {s : Store} {email cand cid eid reg sec : String}
    {now : Int} {r : OTPRec} (h : s.otps email = some r) (hne : r.otp ≠ cand) :
    handleVerify s email cand cid eid reg sec now
      = (Except.error VerifyError.mismatch, s) := by
  unfold handleVerify
  rw [h]
  simp [hne]

/-- Matching candidate on an expired record: `expired`, record deleted. -/
theorem handleVerify_expired {s : Store} {email cand cid eid reg sec : String}
    {now : Int} {r : OTPRec} (h : s.otps email = some r) (heq : r.otp = cand)
    (hexp : now > r.expires) :
    handleVerify s email cand cid eid reg sec now
      = (Except.error VerifyError.expired, { s with otps := upd s.otps email none }) := by
  unfold handleVerify
  rw [h]
  simp [heq, hexp]

/-- Matching candidate on a live record: success, client provisioned or
fetched, token minted, record deleted. -/
theorem handleVerify_success {s : Store} {email cand cid eid reg sec : String}
    {now : Int} {r : OTPRec} (h : s.otps email = some r) (heq : r.otp = cand)
    (hfr : ¬ now > r.expires) :
    handleVerify s email cand cid eid reg sec now
      = (Except.ok ((getOrCreateClientWithInfrastructure s email cid eid reg now).1.id,
           generateToken (getOrCreateClientWithInfrastructure s email cid eid reg now).1.id now sec,
           (getOrCreateClientWithInfrastructure s email cid eid reg now).1.environment),
         { (getOrCreateClientWithInfrastructure s email cid eid reg now).2 with
             otps := upd (getOrCreateClientWithInfrastructure s email cid eid reg now).2.otps email none }) := by
  unfold handleVerify
  rw [h]
  simp [heq, hfr]

/-- Existing client: returned unchanged, store unchanged. -/
theorem getOrCreate_found {s : Store} {email cid eid reg : String} {now : Int}
    {c : ClientData} (h : s.clientsByEmail email = some c) :
    getOrCreateClientWithInfrastructure s email cid eid reg now = (c, s) := by
  unfold getOrCreateClientWithInfrastructure
  rw [h]

/-- The registry never touches the OTP namespace. -/
theorem getOrCreate_otps (s : Store) (email cid eid reg : String) (now : Int) :
    (getOrCreateClientWithInfrastructure s email cid eid reg now).2.otps = s.otps := by
  unfold getOrCreateClientWithInfrastructure
  split <;> rfl

/-- After `getOrCreate`, the by-email key holds the returned aggregate. -/
theorem getOrCreate_byEmail (s : Store) (email cid eid reg : String) (now : Int) :
    (getOrCreateClientWithInfrastructure s email cid eid reg now).2.clientsByEmail email
      = some (getOrCreateClientWithInfrastructure s email cid eid reg now).1 := by
  unfold getOrCreateClientWithInfrastructure
  split
  next c hc => exact hc
  next hc => simp [upd]

/-- The returned aggregate depends on the store only through the by-email
lookup. -/
theorem getOrCreate_fst_congr {s1 s2 : Store} {email cid eid reg : String} {now : Int}
    (h : s1.clientsByEmail email = s2.clientsByEmail email) :
    (getOrCreateClientWithInfrastructure s1 email cid eid reg now).1
      = (getOrCreateClientWithInfrastructure s2 email cid eid reg now).1 := by
  unfold getOrCreateClientWithInfrastructure
  rw [h]
  cases s2.clientsByEmail email <;> rfl

/-- C2: a pending, unexpired OTP record verifies successfully with the
stored code, the record is deleted, and a second verify for the same
email with the same code fails with `notFound` (the record-absent error)
and leaves the store unchanged. -/
theorem C2_verify_single_use (s : Store)
    (email cand cid eid reg sec cid2 eid2 reg2 sec2 : String)
    (now now2 : Int) (r : OTPRec)
    (hrec : s.otps email = some r) (hcode : r.otp = cand)
    (hfresh : ¬ now > r.expires) :
    (∃ resp, (handleVerify s email cand cid eid reg sec now).1 = Except.ok resp) ∧
    (handleVerify s email cand cid eid reg sec now).2.otps email = none ∧
    handleVerify (handleVerify s email cand cid eid reg sec now).2 email cand
        cid2 eid2 reg2 sec2 now2
      = (Except.error VerifyError.notFound,
         (handleVerify s email cand cid eid reg sec now).2) := by
  have hsucc := @handleVerify_success s email cand cid eid reg sec now r
    hrec hcode hfresh
  have hdel : (handleVerify s email cand cid eid reg sec now).2.otps email = none := by
    rw [hsucc]
    exact upd_same _ _ _
  refine ⟨⟨_, by rw [hsucc]⟩, hdel, handleVerify_notFound hdel⟩

/-- C2 witness at a concrete store, code and times. -/
theorem C2_verify_single_use_witness :
    sampleOtpStore.otps "a@x.com" = some ⟨"123456", 300, 0⟩ ∧
    ¬ (10 : Int) > 300 ∧
    ((∃ resp, (handleVerify sampleOtpStore "a@x.com" "123456" "cid" "eid" "r" "k" 10).1
        = Except.ok resp) ∧
     (handleVerify sampleOtpStore "a@x.com" "123456" "cid" "eid" "r" "k" 10).2.otps "a@x.com"
        = none ∧
     handleVerify (handleVerify sampleOtpStore "a@x.com" "123456" "cid" "eid" "r" "k" 10).2
        "a@x.com" "123456" "cid2" "eid2" "r2" "k2" 20
       = (Except.error VerifyError.notFound,
          (handleVerify sampleOtpStore "a@x.com" "123456" "cid" "eid" "r" "k" 10).2)) :=
  ⟨rfl, by decide,
   C2_verify_single_use sampleOtpStore "a@x.com" "123456" "cid" "eid" "r" "k"
     "cid2" "eid2" "r2" "k2" 10 20 ⟨"123456", 300, 0⟩ rfl rfl (by decide)⟩

/-- C3: `getOrCreate` is idempotent — a second call with the same email
returns the exact aggregate of the first call (in particular the same
client identifier) and returns the store of the first call unchanged (no
new Client, Environment, or store entries). -/
theorem C3_getOrCreate_idempotent (s : Store)
    (email cid eid reg cid2 eid2 reg2 : String) (now now2 : Int) :
    getOrCreateClientWithInfrastructure
        (getOrCreateClientWithInfrastructure s email cid eid reg now).2 email
        cid2 eid2 reg2 now2
      = ((getOrCreateClientWithInfrastructure s email cid eid reg now).1,
         (getOrCreateClientWithInfrastructure s email cid eid reg now).2) :=
  getOrCreate_found (getOrCreate_byEmail s email cid eid reg now)

/-- C4: a token issued for a client id validates under the same key to
that id while `now ≤ issued_at + 24h`, and fails validation once
`now > issued_at + 24h`. -/
theorem C4_token_roundtrip (id0 sec : String) (now t : Int) :
    (t ≤ now + 86400 → validateToken (generateToken id0 now sec) sec t = some id0) ∧
    (now + 86400 < t → validateToken (generateToken id0 now sec) sec t = none) := by
  constructor <;> intro h
  · rw [validateToken, generateToken]
    simp only [ne_eq, not_true_eq_false, if_false]
    rw [if_neg (by omega)]
  · rw [validateToken, generateToken]
    simp only [ne_eq, not_true_eq_false, if_false]
    rw [if_pos (by omega)]

/-- C4 witness: validation succeeds at exactly 24h and fails one second
later. -/
theorem C4_token_roundtrip_witness :
    ((86400 : Int) ≤ 0 + 86400 ∧
      validateToken (generateToken "c1" 0 "k") "k" 86400 = some "c1") ∧
    ((0 : Int) + 86400 < 86401 ∧
      validateToken (generateToken "c1" 0 "k") "k" 86401 = none) :=
  ⟨⟨by decide, (C4_token_roundtrip "c1" "k" 0 86400).1 (by decide)⟩,
   ⟨by decide, (C4_token_roundtrip "c1" "k" 0 86401).2 (by decide)⟩⟩

/-- C5: presenting the stored code after expiry fails with `expired` and
deletes the record, so any subsequent verify for that email fails with
`notFound`. -/
theorem C5_expired_verify (s : Store)
    (email cand cid eid reg sec cand2 cid2 eid2 reg2 sec2 : String)
    (now now2 : Int) (r : OTPRec)
    (hrec : s.otps email = some r) (hcode : r.otp = cand)
    (hexp : now > r.expires) :
    handleVerify s email cand cid eid reg sec now
      = (Except.error VerifyError.expired, { s with otps := upd s.otps email none }) ∧
    handleVerify { s with otps := upd s.otps email none } email cand2
        cid2 eid2 reg2 sec2 now2
      = (Except.error VerifyError.notFound, { s with otps := upd s.otps email none }) := by
  refine ⟨handleVerify_expired hrec hcode hexp, handleVerify_notFound ?_⟩
  exact upd_same _ _ _

/-- C5 witness at a concrete expired record. -/
theorem C5_expired_verify_witness :
    sampleOtpStore.otps "a@x.com" = some ⟨"123456", 300, 0⟩ ∧
    (1000 : Int) > 300 ∧
    (handleVerify sampleOtpStore "a@x.com" "123456" "cid" "eid" "r" "k" 1000
       = (Except.error VerifyError.expired,
          { sampleOtpStore with otps := upd sampleOtpStore.otps "a@x.com" none }) ∧
     handleVerify { sampleOtpStore with otps := upd sampleOtpStore.otps "a@x.com" none }
        "a@x.com" "000000" "cid2" "eid2" "r2" "k2" 2000
       = (Except.error VerifyError.notFound,
          { sampleOtpStore with otps := upd sampleOtpStore.otps "a@x.com" none })) :=
  ⟨rfl, by decide,
   C5_expired_verify sampleOtpStore "a@x.com" "123456" "cid" "eid" "r" "k"
     "000000" "cid2" "eid2" "r2" "k2" 1000 2000 ⟨"123456", 300, 0⟩ rfl rfl (by decide)⟩

/-- C10: a wrong candidate yields `mismatch` and leaves the store exactly
unchanged, regardless of expiry — the mismatch check precedes the expiry
check, so a wrong candidate against an expired record yields `mismatch`,
not `expired`, and the expired record remains in the store. -/
theorem C10_mismatch_precedes_expiry (s : Store)
    (email cand cid eid reg sec : String) (now : Int) (r : OTPRec)
    (hrec : s.otps email = some r) (hne : r.otp ≠ cand) :
    handleVerify s email cand cid eid reg sec now
      = (Except.error VerifyError.mismatch, s) :=
  handleVerify_mismatch hrec hne

/-- C10 witness: the record is already expired (1000 > 300), yet the
wrong candidate yields `mismatch` and the record survives. -/
theorem C10_mismatch_precedes_expiry_witness :
    sampleOtpStore.otps "a@x.com" = some ⟨"123456", 300, 0⟩ ∧
    ("123456" : String) ≠ "999999" ∧
    (1000 : Int) > 300 ∧
    handleVerify sampleOtpStore "a@x.com" "999999" "cid" "eid" "r" "k" 1000
      = (Except.error VerifyError.mismatch, sampleOtpStore) :=
  ⟨rfl, by decide, by decide,
   C10_mismatch_precedes_expiry sampleOtpStore "a@x.com" "999999" "cid" "eid"
     "r" "k" 1000 ⟨"123456", 300, 0⟩ rfl (by decide)⟩


/-! ## Manifest replacement (C6) -/

/-- C6 counterexample: with `sampleManifest.lastUpdated = 0` and write
time 5, `get` after `replace` does not return exactly the replaced
manifest — its `lastUpdated` was restamped, refuting "returns exactly m". -/
theorem C6_counterexample :
    (getClientInfrastructure
        (updateClientInfrastructure clientStore "c1" sampleManifest 5) "c1").map
      (fun c => c.infrastructure) ≠ some sampleManifest := by
  decide

/-- C6 amended: `replace` followed by `get` returns the replaced manifest
verbatim in all four id-sets and `created` (a total overwrite, no field
merging), with `lastUpdated` set to the write time; this strictly
advances the stored `lastUpdated` whenever the write time is later than
the previously stored one. -/
theorem C6_replace_then_get (s : Store) (cid : String) (m : Infrastructure)
    (now : Int) (c : ClientData) (h : s.clientsById cid = some c) :
    getClientInfrastructure (updateClientInfrastructure s cid m now) cid
      = some { c with infrastructure := { m with lastUpdated := now } } ∧
    (c.infrastructure.lastUpdated < now →
      c.infrastructure.lastUpdated
        < ({ m with lastUpdated := now } : Infrastructure).lastUpdated) := by
  constructor
  · unfold updateClientInfrastructure getClientInfrastructure
    rw [h]
    exact upd_same _ _ _
  · intro hlt
    exact hlt

/-- C6 witness at the concrete store and manifest. -/
theorem C6_replace_then_get_witness :
    clientStore.clientsById "c1" = some sampleClient ∧
    (getClientInfrastructure
        (updateClientInfrastructure clientStore "c1" sampleManifest 5) "c1"
       = some { sampleClient with
           infrastructure := { sampleManifest with lastUpdated := 5 } } ∧
     (sampleClient.infrastructure.lastUpdated < 5 →
       sampleClient.infrastructure.lastUpdated
         < ({ sampleManifest with lastUpdated := 5 } : Infrastructure).lastUpdated)) :=
  ⟨rfl, C6_replace_then_get clientStore "c1" sampleManifest 5 sampleClient rfl⟩

/-! ## Dual views (C7) -/

/-- `touchLastSeen` re-persists the updated aggregate under both keys. -/
theorem updateClientLastSeen_views {s : Store} {cid : String} {now : Int}
    {c : ClientData} (h : s.clientsById cid = some c) :
    (updateClientLastSeen s cid now).clientsById cid
      = some { c with lastSeen := now } ∧
    (updateClientLastSeen s cid now).clientsByEmail c.email
      = some { c with lastSeen := now } := by
  unfold updateClientLastSeen getClientInfrastructure
  rw [h]
  exact ⟨upd_same _ _ _, upd_same _ _ _⟩

/-- `replaceInfrastructure` re-persists the updated aggregate under both
keys. -/
theorem updateClientInfrastructure_views {s : Store} {cid : String}
    {m : Infrastructure} {now : Int} {c : ClientData}
    (h : s.clientsById cid = some c) :
    (updateClientInfrastructure s cid m now).clientsById cid
      = some { c with infrastructure := { m with lastUpdated := now } } ∧
    (updateClientInfrastructure s cid m now).clientsByEmail c.email
      = some { c with infrastructure := { m with lastUpdated := now } } := by
  unfold updateClientInfrastructure getClientInfrastructure
  rw [h]
  exact ⟨upd_same _ _ _, upd_same _ _ _⟩

/-- After `getOrCreate`, both views hold the returned aggregate (an
agreeing pre-state is needed for the found branch, which writes
nothing). -/
theorem getOrCreate_views (s : Store) (email cid eid reg : String) (now : Int)
    (hpre : ∀ c0, s.clientsByEmail email = some c0 →
      c0.email = email ∧ s.clientsById c0.id = some c0) :
    (getOrCreateClientWithInfrastructure s email cid eid reg now).2.clientsByEmail
        (getOrCreateClientWithInfrastructure s email cid eid reg now).1.email
      = some (getOrCreateClientWithInfrastructure s email cid eid reg now).1 ∧
    (getOrCreateClientWithInfrastructure s email cid eid reg now).2.clientsById
        (getOrCreateClientWithInfrastructure s email cid eid reg now).1.id
      = some (getOrCreateClientWithInfrastructure s email cid eid reg now).1 := by
  cases hc : s.clientsByEmail email with
  | some c =>
    rw [getOrCreate_found hc]
    rcases hpre c hc with ⟨he, hid⟩
    exact ⟨by rw [he]; exact hc, hid⟩
  | none =>
    unfold getOrCreateClientWithInfrastructure
    rw [hc]
    refine ⟨upd_same _ _ _, upd_same _ _ _⟩

/-- C7: after each registry operation the by-email and by-client-id views
of the affected client hold equal aggregates: `getOrCreate` leaves both
views holding the returned aggregate (assuming they agreed beforehand for
that email, which creation establishes), and the two read-modify-write
operations re-persist the updated aggregate under both keys. -/
theorem C7_dual_views (s : Store) (email cid eid reg id2 id3 : String)
    (m : Infrastructure) (now now2 now3 : Int)
    (hpre : ∀ c0, s.clientsByEmail email = some c0 →
      c0.email = email ∧ s.clientsById c0.id = some c0) :
    ((getOrCreateClientWithInfrastructure s email cid eid reg now).2.clientsByEmail
        (getOrCreateClientWithInfrastructure s email cid eid reg now).1.email
      = some (getOrCreateClientWithInfrastructure s email cid eid reg now).1 ∧
     (getOrCreateClientWithInfrastructure s email cid eid reg now).2.clientsById
        (getOrCreateClientWithInfrastructure s email cid eid reg now).1.id
      = some (getOrCreateClientWithInfrastructure s email cid eid reg now).1) ∧
    (∀ c, s.clientsById id2 = some c →
      (updateClientLastSeen s id2 now2).clientsById id2
        = some { c with lastSeen := now2 } ∧
      (updateClientLastSeen s id2 now2).clientsByEmail c.email
        = some { c with lastSeen := now2 }) ∧
    (∀ c, s.clientsById id3 = some c →
      (updateClientInfrastructure s id3 m now3).clientsById id3
        = some { c with infrastructure := { m with lastUpdated := now3 } } ∧
      (updateClientInfrastructure s id3 m now3).clientsByEmail c.email
        = some { c with infrastructure := { m with lastUpdated := now3 } }) :=
  ⟨getOrCreate_views s email cid eid reg now hpre,
   fun _ hc => updateClientLastSeen_views hc,
   fun _ hc => updateClientInfrastructure_views hc⟩

/-- C7 witness at the concrete client store. -/
theorem C7_dual_views_witness :
    (∀ c0, clientStore.clientsByEmail "e@x.com" = some c0 →
      c0.email = "e@x.com" ∧ clientStore.clientsById c0.id = some c0) ∧
    (((getOrCreateClientWithInfrastructure clientStore "e@x.com" "cid" "eid" "r" 1).2.clientsByEmail
        (getOrCreateClientWithInfrastructure clientStore "e@x.com" "cid" "eid" "r" 1).1.email
      = some (getOrCreateClientWithInfrastructure clientStore "e@x.com" "cid" "eid" "r" 1).1 ∧
     (getOrCreateClientWithInfrastructure clientStore "e@x.com" "cid" "eid" "r" 1).2.clientsById
        (getOrCreateClientWithInfrastructure clientStore "e@x.com" "cid" "eid" "r" 1).1.id
      = some (getOrCreateClientWithInfrastructure clientStore "e@x.com" "cid" "eid" "r" 1).1) ∧
    (∀ c, clientStore.clientsById "c1" = some c →
      (updateClientLastSeen clientStore "c1" 2).clientsById "c1"
        = some { c with lastSeen := 2 } ∧
      (updateClientLastSeen clientStore "c1" 2).clientsByEmail c.email
        = some { c with lastSeen := 2 }) ∧
    (∀ c, clientStore.clientsById "c1" = some c →
      (updateClientInfrastructure clientStore "c1" sampleManifest 3).clientsById "c1"
        = some { c with infrastructure := { sampleManifest with lastUpdated := 3 } } ∧
      (updateClientInfrastructure clientStore "c1" sampleManifest 3).clientsByEmail c.email
        = some { c with infrastructure := { sampleManifest with lastUpdated := 3 } })) := by
  have hpre : ∀ c0, clientStore.clientsByEmail "e@x.com" = some c0 →
      c0.email = "e@x.com" ∧ clientStore.clientsById c0.id = some c0 := by
    intro c0 h0
    have h1 : some sampleClient = some c0 := h0
    have h2 : c0 = sampleClient := (Option.some.inj h1).symm
    subst h2
    exact ⟨rfl, rfl⟩
  exact ⟨hpre, C7_dual_views clientStore "e@x.com" "cid" "eid" "r" "c1" "c1"
    sampleManifest 1 2 3 hpre⟩


/-! ## Authenticated access and `last_seen_at` (C8) -/

/-- A token signed with the right key and not expired validates to its
subject. -/
theorem validateToken_ok {t : Token} {sec : String} {now : Int}
    (hkey : t.key = sec) (hexp : ¬ now > t.exp) :
    validateToken t sec now = some t.sub := by
  rw [validateToken]
  rw [if_neg (by simp [hkey])]
  rw [if_neg hexp]

/-- C8 counterexample: a valid authenticated `/config` request at time 5
(it returns a config, so the token validated and the client resolved)
leaves the client's `last_seen_at` at its old value 0 instead of mutating
it to 5 — refuting "every authenticated access mutates last_seen_at". -/
theorem C8_counterexample :
    (handleConfig clientStore (some (generateToken "c1" 0 "k")) "k" 5).1.isSome = true ∧
    ((handleConfig clientStore (some (generateToken "c1" 0 "k")) "k" 5).2.clientsById "c1").map
      (fun c => c.lastSeen) = some 0 ∧
    ¬ ((handleConfig clientStore (some (generateToken "c1" 0 "k")) "k" 5).2.clientsById "c1").map
      (fun c => c.lastSeen) = some 5 := by
  decide

/-- C8 amended: among the authenticated handlers, only `/connect` updates
the client's `last_seen_at` (to the current time); `/config` and
GET `/infrastructure` leave the store entirely unchanged, and
POST `/infrastructure` rewrites the client record but preserves
`last_seen_at`. -/
theorem C8_lastSeen_only_connect (s : Store) (t : Token) (sec : String)
    (now : Int) (c : ClientData) (m : Infrastructure)
    (hkey : t.key = sec) (hexp : ¬ now > t.exp)
    (hc : s.clientsById t.sub = some c) :
    (handleConnect s (some t) sec now).1
      = ConnectResult.connected t.sub c.environment ∧
    (handleConnect s (some t) sec now).2.clientsById t.sub
      = some { c with lastSeen := now } ∧
    handleConfig s (some t) sec now
      = (some ⟨c.environment.vpnServer, c.environment.vpnPort, t,
          c.environment.id⟩, s) ∧
    handleGetInfrastructure s (some t) sec now
      = (some (t.sub, c.infrastructure, c.environment), s) ∧
    ((handleInfrastructure s (some t) sec m now).2.clientsById t.sub).map
      (fun c2 => c2.lastSeen) = some c.lastSeen := by
  have hv := validateToken_ok hkey hexp
  have hconn : handleConnect s (some t) sec now
      = (ConnectResult.connected t.sub c.environment,
         updateClientLastSeen s t.sub now) := by
    simp only [handleConnect, hv, getClientInfrastructure, hc]
  refine ⟨by rw [hconn], ?_, ?_, ?_, ?_⟩
  · rw [hconn]
    exact (updateClientLastSeen_views hc).1
  · simp only [handleConfig, hv, getClientInfrastructure, hc]
  · simp only [handleGetInfrastructure, hv, getClientInfrastructure, hc]
  · simp only [handleInfrastructure, hv]
    rw [(@updateClientInfrastructure_views s t.sub m now c hc).1]
    rfl

/-- C8 witness at the concrete client store and a freshly issued token. -/
theorem C8_lastSeen_only_connect_witness :
    (generateToken "c1" 0 "k").key = "k" ∧
    ¬ (5 : Int) > (generateToken "c1" 0 "k").exp ∧
    clientStore.clientsById (generateToken "c1" 0 "k").sub = some sampleClient ∧
    ((handleConnect clientStore (some (generateToken "c1" 0 "k")) "k" 5).1
      = ConnectResult.connected (generateToken "c1" 0 "k").sub sampleClient.environment ∧
     (handleConnect clientStore (some (generateToken "c1" 0 "k")) "k" 5).2.clientsById
        (generateToken "c1" 0 "k").sub = some { sampleClient with lastSeen := 5 } ∧
     handleConfig clientStore (some (generateToken "c1" 0 "k")) "k" 5
       = (some ⟨sampleClient.environment.vpnServer, sampleClient.environment.vpnPort,
           generateToken "c1" 0 "k", sampleClient.environment.id⟩, clientStore) ∧
     handleGetInfrastructure clientStore (some (generateToken "c1" 0 "k")) "k" 5
       = (some ((generateToken "c1" 0 "k").sub, sampleClient.infrastructure,
           sampleClient.environment), clientStore) ∧
     ((handleInfrastructure clientStore (some (generateToken "c1" 0 "k")) "k"
          sampleManifest 5).2.clientsById (generateToken "c1" 0 "k").sub).map
        (fun c2 => c2.lastSeen) = some sampleClient.lastSeen) :=
  ⟨rfl, by decide, rfl,
   C8_lastSeen_only_connect clientStore (generateToken "c1" 0 "k") "k" 5
     sampleClient sampleManifest rfl (by decide) rfl⟩

/-! ## Attempt counting (C9) -/

/-- C9 counterexample: a failed verification attempt (mismatch at time
10) leaves the stored OTP record — attempt count included — exactly as it
was (still 0), refuting "each verification attempt updates it". -/
theorem C9_counterexample :
    (handleVerify sampleOtpStore "a@x.com" "999999" "cid" "eid" "r" "k" 10).1
      = Except.error VerifyError.mismatch ∧
    (handleVerify sampleOtpStore "a@x.com" "999999" "cid" "eid" "r" "k" 10).2.otps "a@x.com"
      = some ⟨"123456", 300, 0⟩ ∧
    sampleOtpStore.otps "a@x.com" = some ⟨"123456", 300, 0⟩ :=
  ⟨rfl, rfl, rfl⟩

/-- C9 amended: `attempt_count` is initialized to 0 at issue and never
gates verification — but it is also never updated by a verification
attempt: every verify either leaves the record untouched or deletes it,
and the verification outcome is independent of the stored attempt
count. -/
theorem C9_attempts_not_updated_never_gate (s : Store)
    (email cand cid eid reg sec : String) (b0 b1 b2 : Nat) (now : Int)
    (r : OTPRec) (hemail : ¬ email = "") :
    ((handleRegister s email b0 b1 b2 now).2.otps email).map
      (fun rr => rr.attempts) = some 0 ∧
    (s.otps email = some r →
      (handleVerify s email cand cid eid reg sec now).2.otps email = some r ∨
      (handleVerify s email cand cid eid reg sec now).2.otps email = none) ∧
    (∀ a1 a2 : Nat,
      (handleVerify { s with otps := upd s.otps email (some ⟨r.otp, r.expires, a1⟩) }
          email cand cid eid reg sec now).1
        = (handleVerify { s with otps := upd s.otps email (some ⟨r.otp, r.expires, a2⟩) }
          email cand cid eid reg sec now).1) := by
  refine ⟨?_, ?_, ?_⟩
  · unfold handleRegister
    rw [if_neg hemail]
    simp only
    rw [upd_same]
    rfl
  · intro hrec
    by_cases hne : r.otp ≠ cand
    · rw [handleVerify_mismatch hrec hne]
      exact Or.inl hrec
    · rw [not_not] at hne
      by_cases hexp : now > r.expires
      · rw [handleVerify_expired hrec hne hexp]
        exact Or.inr (upd_same _ _ _)
      · rw [handleVerify_success hrec hne hexp]
        exact Or.inr (upd_same _ _ _)
  · intro a1 a2
    have h1 : ({ s with otps := upd s.otps email (some ⟨r.otp, r.expires, a1⟩) } : Store).otps email
        = some ⟨r.otp, r.expires, a1⟩ := upd_same _ _ _
    have h2 : ({ s with otps := upd s.otps email (some ⟨r.otp, r.expires, a2⟩) } : Store).otps email
        = some ⟨r.otp, r.expires, a2⟩ := upd_same _ _ _
    by_cases hne : r.otp ≠ cand
    · rw [handleVerify_mismatch h1 hne, handleVerify_mismatch h2 hne]
    · rw [not_not] at hne
      by_cases hexp : now > r.expires
      · rw [handleVerify_expired h1 hne hexp, handleVerify_expired h2 hne hexp]
      · rw [handleVerify_success h1 hne hexp, handleVerify_success h2 hne hexp]
        simp only [Prod.fst]
        have he : ({ s with otps := upd s.otps email (some ⟨r.otp, r.expires, a1⟩) } : Store).clientsByEmail email
            = ({ s with otps := upd s.otps email (some ⟨r.otp, r.expires, a2⟩) } : Store).clientsByEmail email := rfl
        rw [getOrCreate_fst_congr he]

/-- C9 witness at the concrete OTP store. -/
theorem C9_attempts_witness :
    ¬ ("a@x.com" : String) = "" ∧
    (((handleRegister sampleOtpStore "a@x.com" 0 0 0 10).2.otps "a@x.com").map
       (fun rr => rr.attempts) = some 0 ∧
     (sampleOtpStore.otps "a@x.com" = some ⟨"123456", 300, 0⟩ →
       (handleVerify sampleOtpStore "a@x.com" "999999" "cid" "eid" "r" "k" 10).2.otps "a@x.com"
         = some ⟨"123456", 300, 0⟩ ∨
       (handleVerify sampleOtpStore "a@x.com" "999999" "cid" "eid" "r" "k" 10).2.otps "a@x.com"
         = none) ∧
     (∀ a1 a2 : Nat,
       (handleVerify { sampleOtpStore with
            otps := upd sampleOtpStore.otps "a@x.com" (some ⟨"123456", 300, a1⟩) }
           "a@x.com" "999999" "cid" "eid" "r" "k" 10).1
         = (handleVerify { sampleOtpStore with
            otps := upd sampleOtpStore.otps "a@x.com" (some ⟨"123456", 300, a2⟩) }
           "a@x.com" "999999" "cid" "eid" "r" "k" 10).1)) :=
  ⟨by decide,
   C9_attempts_not_updated_never_gate sampleOtpStore "a@x.com" "999999" "cid"
     "eid" "r" "k" 0 0 0 10 ⟨"123456", 300, 0⟩ (by decide)⟩

end Soltar
